import Mathlib

/-!
Shallow embedding of the spa-events-management single-page application:
the session store (src/auth.js), the authentication controller
(handleLogin), the event controller (registerForEvent,
unregisterFromEvent) and the router (handleLocation in src/router.js).
Network interaction is made explicit: fetch results are passed in as
values and the requests a function issues are returned alongside its
result.
-/

namespace SpaEvents

/-- A user record as stored by the users resource (src/models/user.js plus
the server-assigned id). -/
structure User where
  id : Nat
  email : String
  password : String
  role : String
deriving Repr, DecidableEq

/-- The session record persisted in localStorage under "loggedInUser":
only id, email and role (src/auth.js, saveUserInfo). -/
structure Session where
  id : Nat
  email : String
  role : String
deriving Repr, DecidableEq

/-- saveUserInfo (src/auth.js): strips the password and keeps id, email
and role. The localStorage slot itself is modelled as an
`Option Session` threaded through the callers. -/
def saveUserInfo (user : User) : Session :=
  { id := user.id, email := user.email, role := user.role }

/-- isAuthenticated (src/auth.js): true iff the localStorage slot holds a
record. -/
def isAuthenticated (stored : Option Session) : Bool :=
  stored.isSome

/-- getCurrentUser (src/auth.js): the parsed record, or null when the
slot is empty. -/
def getCurrentUser (stored : Option Session) : Option Session :=
  stored

/-- logOut (src/auth.js): removes the record. -/
def logOut (_stored : Option Session) : Option Session :=
  none

/-- Result of a fetch as the controllers see it: either the transport
failed or the HTTP status was not ok (both collapse into the same catch
branch in the source), or the decoded JSON body. -/
inductive FetchResult (α : Type) where
  | failure
  | ok (value : α)
deriving Repr, DecidableEq

/-- The server-side filter behind
GET /users?email=...&password=... used by handleLogin: records matching
both fields exactly, in store order. -/
def filterUsers (store : List User) (email password : String) : List User :=
  store.filter (fun u => u.email == email && u.password == password)

/-- handleLogin (authController.js): on a fetch failure returns false;
on a JSON array of exactly one user, saves that user's info and returns
true; otherwise returns false. The returned pair is (result, new
localStorage state). -/
def handleLogin (resp : FetchResult (List User)) (stored : Option Session) :
    Bool × Option Session :=
  match resp with
  | .failure => (false, stored)
  | .ok users =>
    match users with
    | [user] => (true, some (saveUserInfo user))
    | _ => (false, stored)

/-- An event record (src/models/event.js plus the server-assigned id). -/
structure Event where
  id : Nat
  title : String
  description : String
  location : String
  date : String
  capacity : Nat
  attendees : List Nat
deriving Repr, DecidableEq

/-- The Event constructor (src/models/event.js): a new event starts with
no attendees. The id is assigned by the server on creation. -/
def Event.new (id : Nat) (title description location date : String)
    (capacity : Nat) : Event :=
  { id := id, title := title, description := description,
    location := location, date := date, capacity := capacity,
    attendees := [] }

/-- The body of the PATCH issued by registerForEvent and
unregisterFromEvent: it carries only the attendees field. -/
structure AttendeesPatch where
  attendees : List Nat
deriving Repr, DecidableEq

/-- Server-side merge of an attendees-only PATCH (json-server PATCH
semantics: only the provided field is replaced). -/
def applyPatch (e : Event) (p : AttendeesPatch) : Event :=
  { e with attendees := p.attendees }

/-- A network request issued by the event controller. -/
inductive Request where
  | getEvent (eventId : Nat)
  | patchEvent (eventId : Nat) (body : AttendeesPatch)
deriving Repr, DecidableEq

/-- registerForEvent (eventController.js). Parameters: the localStorage
state, the event id, the result of the initial GET, and whether the
PATCH transport succeeds. Returns the function's result (the updated
event, or null) together with the list of requests issued, in order. -/
def registerForEvent (stored : Option Session) (eventId : Nat)
    (fetched : FetchResult Event) (patchOk : Bool) :
    Option Event × List Request :=
  match getCurrentUser stored with
  | none => (none, [])
  | some currentUser =>
    match fetched with
    | .failure => (none, [.getEvent eventId])
    | .ok event =>
      if event.capacity ≤ event.attendees.length then
        (none, [.getEvent eventId])
      else if event.attendees.contains currentUser.id then
        (none, [.getEvent eventId])
      else
        let newAttendees := event.attendees ++ [currentUser.id]
        let reqs := [Request.getEvent eventId,
                     Request.patchEvent eventId ⟨newAttendees⟩]
        if patchOk then
          (some (applyPatch event ⟨newAttendees⟩), reqs)
        else
          (none, reqs)

/-- unregisterFromEvent (eventController.js): same conventions as
registerForEvent; filters the current user's id out of attendees and
patches unconditionally. -/
def unregisterFromEvent (stored : Option Session) (eventId : Nat)
    (fetched : FetchResult Event) (patchOk : Bool) :
    Option Event × List Request :=
  match getCurrentUser stored with
  | none => (none, [])
  | some currentUser =>
    match fetched with
    | .failure => (none, [.getEvent eventId])
    | .ok event =>
      let newAttendees := event.attendees.filter (fun i => i != currentUser.id)
      let reqs := [Request.getEvent eventId,
                   Request.patchEvent eventId ⟨newAttendees⟩]
      if patchOk then
        (some (applyPatch event ⟨newAttendees⟩), reqs)
      else
        (none, reqs)

/-- Sequential enrollment against the server: run registerForEvent once
per user id, each time fetching the current event state and letting the
server apply the issued PATCH (registerForEvent already returns the
patched event on success); stops with none as soon as one enrollment
fails. -/
def enrollAll (uids : List Nat) (e : Event) : Option Event :=
  match uids with
  | [] => some e
  | uid :: rest =>
    match (registerForEvent (some ⟨uid, "user@events.com", "visitor"⟩)
        e.id (.ok e) true).1 with
    | none => none
    | some next => enrollAll rest next

/-- The identifiers of the per-view initializers attached by
handleLocation (src/router.js). -/
inductive Initializer where
  | loginForm
  | registerForm
  | adminDashboard
  | visitorDashboard
deriving Repr, DecidableEq

/-- The observable outcome of one handleLocation cycle: an early return
through navigateTo, or a call to loadView with a view path and an
optional initializer run afterwards. -/
inductive Outcome where
  | redirect (path : String)
  | render (viewPath : String) (init : Option Initializer)
deriving Repr, DecidableEq

/-- The routes table of src/router.js. -/
def routes : String → Option String
  | "/" => some "src/views/home.html"
  | "/login" => some "src/views/login.html"
  | "/register" => some "src/views/register.html"
  | "/admin-dashboard" => some "src/views/admin-dashboard.html"
  | "/visitor-dashboard" => some "src/views/visitor-dashboard.html"
  | "/404" => some "src/views/404.html"
  | _ => none

/-- The route-resolution switch of handleLocation (src/router.js),
reached when neither authentication guard fired. In the
"/admin-dashboard" case with an authenticated user whose role is
neither "administrator" nor "visitor", viewPath stays undefined and
loadView falls back to the 404 view; the same happens there when the
user is null, though the guards make that unreachable. -/
def resolveRoute (path : String) (user : Option Session) : Outcome :=
  if path == "/" || path == "/home" then
    Outcome.render "src/views/home.html" none
  else if path == "/login" then
    Outcome.render "src/views/login.html" (some .loginForm)
  else if path == "/register" then
    Outcome.render "src/views/register.html" (some .registerForm)
  else if path == "/admin-dashboard" then
    match user with
    | some u =>
      if u.role == "administrator" then
        Outcome.render "src/views/admin-dashboard.html" (some .adminDashboard)
      else if u.role == "visitor" then
        Outcome.redirect "/visitor-dashboard"
      else
        Outcome.render "src/views/404.html" none
    | none => Outcome.render "src/views/404.html" none
  else if path == "/visitor-dashboard" then
    match user with
    | some u =>
      if u.role == "visitor" then
        Outcome.render "src/views/visitor-dashboard.html" (some .visitorDashboard)
      else
        Outcome.redirect "/admin-dashboard"
    | none => Outcome.redirect "/login"
  else
    Outcome.render "src/views/404.html" none

/-- handleLocation (src/router.js) for one cycle: the two
authentication guards in source order, then the switch. The localStorage
state stands in for isAuthenticated() and getCurrentUser(); in the
source user.role is only read under isAuth, which is why the guest-only
guard can match on the session record. -/
def handleLocation (path : String) (stored : Option Session) : Outcome :=
  match getCurrentUser stored with
  | none =>
    if path == "/admin-dashboard" || path == "/visitor-dashboard" then
      Outcome.redirect "/login"
    else
      resolveRoute path none
  | some user =>
    if path == "/login" || path == "/register" then
      Outcome.redirect
        (if user.role == "administrator" then "/admin-dashboard"
         else "/visitor-dashboard")
    else
      resolveRoute path (some user)

/-- navigateTo re-enters handleLocation, so a redirect outcome starts a
fresh cycle at the new path with the same session. The fuel bounds the
redirect chain; when it runs out the pending redirect is returned as
is. -/
def navigate : Nat → String → Option Session → Outcome
  | 0, path, _ => Outcome.redirect path
  | fuel + 1, path, stored =>
    match handleLocation path stored with
    | Outcome.redirect p => navigate fuel p stored
    | o => o

/-! Helper lemmas shared by the claim theorems. -/

/-- One successful enrollment step: with room left and the user not yet
enrolled, registerForEvent issues the GET and the attendees-only PATCH
and returns the event with the user id appended. -/
lemma registerForEvent_ok (user : Session) (eventId : Nat) (e : Event)
    (hcap : e.attendees.length < e.capacity) (hmem : user.id ∉ e.attendees) :
    registerForEvent (some user) eventId (.ok e) true =
      (some { e with attendees := e.attendees ++ [user.id] },
       [Request.getEvent eventId,
        Request.patchEvent eventId ⟨e.attendees ++ [user.id]⟩]) := by
  have h1 : ¬ e.capacity ≤ e.attendees.length := by omega
  simp [registerForEvent, getCurrentUser, h1, hmem, applyPatch]

/-- Sequential enrollment of pairwise-new user ids succeeds step by step
and appends the ids in order, as long as they fit within capacity. -/
lemma enrollAll_ok (uids : List Nat) (e : Event)
    (hnd : uids.Nodup) (hdisj : ∀ u ∈ uids, u ∉ e.attendees)
    (hcap : e.attendees.length + uids.length ≤ e.capacity) :
    enrollAll uids e = some { e with attendees := e.attendees ++ uids } := by
  induction uids generalizing e with
  | nil => simp [enrollAll]
  | cons uid rest ih =>
    have hlen : e.attendees.length + (rest.length + 1) ≤ e.capacity := by
      simpa using hcap
    have hcap1 : e.attendees.length < e.capacity := by omega
    have hmem : uid ∉ e.attendees := hdisj uid (List.mem_cons_self uid rest)
    rw [enrollAll,
        registerForEvent_ok ⟨uid, "user@events.com", "visitor"⟩ e.id e hcap1 hmem]
    have hrest := ih { e with attendees := e.attendees ++ [uid] }
      (List.Nodup.of_cons hnd)
      (by
        intro u hu
        simp
        constructor
        · exact hdisj u (List.mem_cons_of_mem uid hu)
        · rintro rfl
          exact (List.nodup_cons.mp hnd).1 hu)
      (by simp; omega)
    simpa using hrest

/-- An unauthenticated navigation chain that reaches "/login" either
still has the redirect pending (fuel exhausted) or renders the login
view. -/
lemma navigate_login_none (fuel : Nat) :
    navigate fuel "/login" none = Outcome.redirect "/login" ∨
    navigate fuel "/login" none =
      Outcome.render "src/views/login.html" (some Initializer.loginForm) := by
  cases fuel with
  | zero => exact Or.inl rfl
  | succ n => exact Or.inr rfl

/-! The claim theorems. -/

/-- Claim C1: for every navigation handled by handleLocation where the
session is unauthenticated and the requested path is a protected
dashboard path, the router redirects to /login and aborts the cycle,
and the redirect chain never renders a protected dashboard view. -/
theorem C1_unauth_protected_redirects_to_login (path : String)
    (h : path = "/admin-dashboard" ∨ path = "/visitor-dashboard") :
    handleLocation path none = Outcome.redirect "/login" ∧
    ∀ fuel viewPath init,
      navigate fuel path none = Outcome.render viewPath init →
      viewPath ≠ "src/views/admin-dashboard.html" ∧
      viewPath ≠ "src/views/visitor-dashboard.html" := by
  have hred : handleLocation path none = Outcome.redirect "/login" := by
    rcases h with rfl | rfl <;> rfl
  refine ⟨hred, ?_⟩
  intro fuel viewPath init hnav
  cases fuel with
  | zero => simp [navigate] at hnav
  | succ n =>
    rw [navigate, hred] at hnav
    have hnav2 : navigate n "/login" none = Outcome.render viewPath init := hnav
    rcases navigate_login_none n with hcase | hcase <;> rw [hcase] at hnav2
    · cases hnav2
    · cases hnav2
      constructor <;> decide

/-- Witness for C1 at the concrete path "/admin-dashboard": the cycle
redirects to /login, and the chased navigation renders the login view,
which is neither dashboard view. -/
theorem C1_witness :
    handleLocation "/admin-dashboard" none = Outcome.redirect "/login" ∧
    ("src/views/login.html" ≠ "src/views/admin-dashboard.html" ∧
     "src/views/login.html" ≠ "src/views/visitor-dashboard.html") :=
  ⟨(C1_unauth_protected_redirects_to_login "/admin-dashboard" (Or.inl rfl)).1,
   (C1_unauth_protected_redirects_to_login "/admin-dashboard" (Or.inl rfl)).2
     2 "src/views/login.html" (some Initializer.loginForm) rfl⟩

/-- Claim C2: every authenticated session with role "administrator" or
"visitor" on a guest-only path is redirected to the dashboard matching
its role, never the other role's dashboard. -/
theorem C2_auth_guest_only_redirects_role_dashboard (path : String)
    (user : Session) (hp : path = "/login" ∨ path = "/register") :
    (user.role = "administrator" →
      handleLocation path (some user) = Outcome.redirect "/admin-dashboard") ∧
    (user.role = "visitor" →
      handleLocation path (some user) = Outcome.redirect "/visitor-dashboard") := by
  constructor <;> intro hr <;> rcases hp with rfl | rfl <;>
    simp [handleLocation, getCurrentUser, hr]

/-- Witness for C2: an administrator on /login is sent to the admin
dashboard. -/
theorem C2_witness :
    handleLocation "/login" (some ⟨1, "admin@events.com", "administrator"⟩) =
      Outcome.redirect "/admin-dashboard" :=
  (C2_auth_guest_only_redirects_role_dashboard "/login"
    ⟨1, "admin@events.com", "administrator"⟩ (Or.inl rfl)).1 rfl

/-- Claim C3: handleLogin returns true and saves a session of id, email
and role exactly when the filtered user query yields exactly one
record; with zero or several records, or on a transport/HTTP failure,
it returns false and leaves the stored session unchanged. -/
theorem C3_login_contract (store : List User) (email password : String)
    (stored : Option Session) :
    (∀ u, filterUsers store email password = [u] →
      handleLogin (.ok (filterUsers store email password)) stored =
        (true, some ⟨u.id, u.email, u.role⟩)) ∧
    ((filterUsers store email password).length ≠ 1 →
      handleLogin (.ok (filterUsers store email password)) stored =
        (false, stored)) ∧
    handleLogin .failure stored = (false, stored) := by
  refine ⟨?_, ?_, rfl⟩
  · intro u hu
    rw [hu]
    rfl
  · intro hne
    rcases hlist : filterUsers store email password with _ | ⟨a, _ | ⟨b, t⟩⟩
    · rfl
    · rw [hlist] at hne
      simp at hne
    · rfl

/-- Witness for C3: the spec's example login succeeds against a store
holding exactly the admin record and stores the administrator
session. -/
theorem C3_witness :
    handleLogin
      (.ok (filterUsers [⟨1, "admin@events.com", "admin123", "administrator"⟩]
        "admin@events.com" "admin123")) none =
      (true, some ⟨1, "admin@events.com", "administrator"⟩) :=
  (C3_login_contract [⟨1, "admin@events.com", "admin123", "administrator"⟩]
    "admin@events.com" "admin123" none).1
    ⟨1, "admin@events.com", "admin123", "administrator"⟩ (by decide)

/-- Claim C4: when the fetched event is at or over capacity, or the
current user's id is already among the attendees, registerForEvent
returns null and issues only the initial GET — no mutating write. -/
theorem C4_register_full_or_duplicate_no_mutation (user : Session)
    (eventId : Nat) (e : Event) (patchOk : Bool)
    (h : e.capacity ≤ e.attendees.length ∨ user.id ∈ e.attendees) :
    registerForEvent (some user) eventId (.ok e) patchOk =
      (none, [Request.getEvent eventId]) := by
  rcases h with h | h
  · simp [registerForEvent, getCurrentUser, h]
  · by_cases hc : e.capacity ≤ e.attendees.length
    · simp [registerForEvent, getCurrentUser, hc]
    · simp [registerForEvent, getCurrentUser, hc, h]

/-- Witness for C4: a full event (capacity 2, two attendees) rejects a
new registration with no PATCH issued. -/
theorem C4_witness :
    registerForEvent (some ⟨3, "v@events.com", "visitor"⟩) 5
      (.ok ⟨5, "Concert", "desc", "Hall", "2026-01-01", 2, [7, 8]⟩) true =
      (none, [Request.getEvent 5]) :=
  C4_register_full_or_duplicate_no_mutation ⟨3, "v@events.com", "visitor"⟩ 5
    ⟨5, "Concert", "desc", "Hall", "2026-01-01", 2, [7, 8]⟩ true
    (Or.inl (by decide))

/-- Claim C5: from an event with capacity N and no attendees, enrolling
N distinct users sequentially succeeds throughout, a further attempt by
a new user fails, the count stays N, and a single registerForEvent step
preserves the attendees-within-capacity invariant. -/
theorem C5_sequential_enrollment_capacity (e : Event) (uids : List Nat)
    (w : Nat) (hnd : uids.Nodup) (hatt : e.attendees = [])
    (hlen : uids.length = e.capacity) (hw : w ∉ uids) :
    (∃ final, enrollAll uids e = some final ∧
      final.attendees.length = e.capacity ∧
      (registerForEvent (some ⟨w, "new@events.com", "visitor"⟩) final.id
        (.ok final) true).1 = none ∧
      final.attendees.length ≤ final.capacity) ∧
    (∀ (u : Session) (eid : Nat) (ev next : Event) (pOk : Bool),
      ev.attendees.length ≤ ev.capacity →
      (registerForEvent (some u) eid (.ok ev) pOk).1 = some next →
      next.attendees.length ≤ next.capacity) := by
  constructor
  · refine ⟨{ e with attendees := e.attendees ++ uids }, ?_, ?_, ?_, ?_⟩
    · exact enrollAll_ok uids e hnd (by simp [hatt]) (by simp [hatt, hlen])
    · simp [hatt, hlen]
    · have hfull : e.capacity ≤ e.attendees.length + uids.length := by
        simp [hatt]
        omega
      simp [registerForEvent, getCurrentUser, hfull]
    · simp [hatt, hlen]
  · intro u eid ev next pOk hinv hstep
    by_cases hc : ev.capacity ≤ ev.attendees.length
    · simp [registerForEvent, getCurrentUser, hc] at hstep
    · by_cases hm : u.id ∈ ev.attendees
      · simp [registerForEvent, getCurrentUser, hc, hm] at hstep
      · cases pOk with
        | false => simp [registerForEvent, getCurrentUser, hc, hm] at hstep
        | true =>
          rw [registerForEvent_ok u eid ev (by omega) hm] at hstep
          cases hstep
          simp
          omega

/-- Witness for C5: capacity 2, enrolling users 4 then 9 fills the
event, and user 3 is then rejected with the count still 2. -/
theorem C5_witness :
    (∃ final,
      enrollAll [4, 9] (Event.new 5 "Meetup" "d" "Hall" "2026-01-01" 2) =
        some final ∧
      final.attendees.length =
        (Event.new 5 "Meetup" "d" "Hall" "2026-01-01" 2).capacity ∧
      (registerForEvent (some ⟨3, "new@events.com", "visitor"⟩) final.id
        (.ok final) true).1 = none ∧
      final.attendees.length ≤ final.capacity) ∧
    (∀ (u : Session) (eid : Nat) (ev next : Event) (pOk : Bool),
      ev.attendees.length ≤ ev.capacity →
      (registerForEvent (some u) eid (.ok ev) pOk).1 = some next →
      next.attendees.length ≤ next.capacity) :=
  C5_sequential_enrollment_capacity
    (Event.new 5 "Meetup" "d" "Hall" "2026-01-01" 2) [4, 9] 3
    (by decide) rfl rfl (by decide)

/-- Claim C6: unregisterFromEvent for a user id not in attendees is a
no-op on the attendee set: it returns the unchanged event (no failure),
and the PATCH it issues carries the unchanged attendees list. -/
theorem C6_unregister_absent_is_noop (user : Session) (eventId : Nat)
    (e : Event) (h : user.id ∉ e.attendees) :
    (unregisterFromEvent (some user) eventId (.ok e) true).1 = some e ∧
    ∀ patchOk,
      (unregisterFromEvent (some user) eventId (.ok e) patchOk).2 =
        [Request.getEvent eventId, Request.patchEvent eventId ⟨e.attendees⟩] := by
  have hf : e.attendees.filter (fun i => i != user.id) = e.attendees := by
    apply List.filter_eq_self.mpr
    intro a ha
    simp
    exact fun hEq => h (hEq ▸ ha)
  constructor
  · simp [unregisterFromEvent, getCurrentUser, hf, applyPatch]
  · intro patchOk
    cases patchOk <;> simp [unregisterFromEvent, getCurrentUser, hf]

/-- Witness for C6: user 1 is not in [7, 8]; unenrolling returns the
event unchanged and patches the same attendee list. -/
theorem C6_witness :
    (unregisterFromEvent (some ⟨1, "v@events.com", "visitor"⟩) 5
      (.ok ⟨5, "Concert", "desc", "Hall", "2026-01-01", 3, [7, 8]⟩) true).1 =
      some ⟨5, "Concert", "desc", "Hall", "2026-01-01", 3, [7, 8]⟩ :=
  (C6_unregister_absent_is_noop ⟨1, "v@events.com", "visitor"⟩ 5
    ⟨5, "Concert", "desc", "Hall", "2026-01-01", 3, [7, 8]⟩ (by decide)).1

/-- Claim C7 (counterexample): an authenticated session with the
inconsistent role "moderator" on /visitor-dashboard is redirected to
/admin-dashboard, not to /login as the claim states. -/
theorem C7_counterexample :
    handleLocation "/visitor-dashboard" (some ⟨7, "mod@events.com", "moderator"⟩) =
      Outcome.redirect "/admin-dashboard" ∧
    Outcome.redirect "/admin-dashboard" ≠ Outcome.redirect "/login" := by
  exact ⟨rfl, by decide⟩

/-- Claim C7 (amended): a role-mismatched dashboard navigation for the
two consistent roles redirects to the dashboard matching the role; an
inconsistent role is redirected from /visitor-dashboard to
/admin-dashboard (not /login), and on /admin-dashboard gets no redirect
at all — the undefined view falls back to the 404 page. -/
theorem C7_role_mismatch_redirects (user : Session) :
    (user.role = "administrator" →
      handleLocation "/visitor-dashboard" (some user) =
        Outcome.redirect "/admin-dashboard") ∧
    (user.role = "visitor" →
      handleLocation "/admin-dashboard" (some user) =
        Outcome.redirect "/visitor-dashboard") ∧
    (user.role ≠ "administrator" → user.role ≠ "visitor" →
      handleLocation "/visitor-dashboard" (some user) =
        Outcome.redirect "/admin-dashboard" ∧
      handleLocation "/admin-dashboard" (some user) =
        Outcome.render "src/views/404.html" none) := by
  refine ⟨?_, ?_, ?_⟩
  · intro hr
    simp [handleLocation, getCurrentUser, resolveRoute, hr]
  · intro hr
    simp [handleLocation, getCurrentUser, resolveRoute, hr]
  · intro h1 h2
    constructor <;> simp [handleLocation, getCurrentUser, resolveRoute, h1, h2]

/-- Witness for C7 (amended): an administrator on /visitor-dashboard is
redirected to /admin-dashboard. -/
theorem C7_witness :
    handleLocation "/visitor-dashboard"
      (some ⟨1, "admin@events.com", "administrator"⟩) =
      Outcome.redirect "/admin-dashboard" :=
  (C7_role_mismatch_redirects ⟨1, "admin@events.com", "administrator"⟩).1 rfl

/-- Claim C8: a successful enrollment's PATCH carries only the
attendees field, equal to the fetched attendees with the user's id
appended; the merged event keeps every other field and the prior
attendee order. -/
theorem C8_patch_only_attendees_frame (user : Session) (eventId : Nat)
    (e : Event) (patchOk : Bool)
    (hcap : e.attendees.length < e.capacity) (hmem : user.id ∉ e.attendees) :
    (registerForEvent (some user) eventId (.ok e) patchOk).2 =
      [Request.getEvent eventId,
       Request.patchEvent eventId ⟨e.attendees ++ [user.id]⟩] ∧
    ∀ e2, (registerForEvent (some user) eventId (.ok e) patchOk).1 = some e2 →
      e2.title = e.title ∧ e2.description = e.description ∧
      e2.location = e.location ∧ e2.date = e.date ∧
      e2.capacity = e.capacity ∧ e2.id = e.id ∧
      e2.attendees = e.attendees ++ [user.id] := by
  have h1 : ¬ e.capacity ≤ e.attendees.length := by omega
  cases patchOk with
  | true =>
    rw [registerForEvent_ok user eventId e hcap hmem]
    refine ⟨rfl, ?_⟩
    intro e2 he2
    have he2q : some { e with attendees := e.attendees ++ [user.id] } = some e2 :=
      he2
    cases he2q
    simp
  | false =>
    constructor
    · simp [registerForEvent, getCurrentUser, h1, hmem]
    · intro e2 he2
      simp [registerForEvent, getCurrentUser, h1, hmem] at he2

/-- Witness for C8: enrolling user 1 into an event with attendees
[7, 8] patches exactly attendees [7, 8, 1] and leaves the other fields
alone. -/
theorem C8_witness :
    (registerForEvent (some ⟨1, "v@events.com", "visitor"⟩) 5
      (.ok ⟨5, "Concert", "desc", "Hall", "2026-01-01", 3, [7, 8]⟩) true).2 =
      [Request.getEvent 5, Request.patchEvent 5 ⟨[7, 8, 1]⟩] :=
  (C8_patch_only_attendees_frame ⟨1, "v@events.com", "visitor"⟩ 5
    ⟨5, "Concert", "desc", "Hall", "2026-01-01", 3, [7, 8]⟩ true
    (by decide) (by decide)).1

/-- Claim C9: with no active session, unregisterFromEvent returns null
and issues no network request at all. -/
theorem C9_unregister_no_session_no_requests (eventId : Nat)
    (fetched : FetchResult Event) (patchOk : Bool) :
    unregisterFromEvent none eventId fetched patchOk = (none, []) := rfl

/-- Claim C10: "/home" is an alias of "/": for every session state it
renders the home view with no initializer, the same outcome as "/",
rather than the not-found view. -/
theorem C10_home_alias_of_root (stored : Option Session) :
    handleLocation "/home" stored = Outcome.render "src/views/home.html" none ∧
    handleLocation "/home" stored = handleLocation "/" stored := by
  cases stored <;> exact ⟨rfl, rfl⟩

end SpaEvents
